import Mathlib

/-!
# Verification development for the pi_web_sdk client

A shallow embedding of the core operations of the `pi_web_sdk` repository:
the time codec of `pi_web_sdk/controllers/base.py`, the stream / stream-set
change-feed controllers of `pi_web_sdk/controllers/stream.py`, the event-frame
field mapping of `pi_web_sdk/models/event.py`, and the batched OMF ingestion
loop and hierarchy helper of `sandbox_omf.py`.  Python functions are embedded
as Lean functions; raised exceptions become `Except.error`; the HTTP layer is
embedded as the request value a controller method hands to the client.
-/

set_option maxHeartbeats 1000000

namespace PiWebSdk

/-- Zero-pad the decimal representation of `n` to `w` digits
(Python `%0wd`, as produced inside `datetime.isoformat`). -/
def padNum (w : Nat) (n : Nat) : String :=
  let s := toString n
  String.mk (List.replicate (w - s.length) '0') ++ s

/-- Model of a Python `datetime` value: calendar components plus the optional
fixed UTC offset in minutes carried by `tzinfo` (`none` models a
timezone-naive datetime). -/
structure PyDatetime where
  year : Nat
  month : Nat
  day : Nat
  hour : Nat
  minute : Nat
  second : Nat
  microsecond : Nat
  tzoffsetMinutes : Option Int
deriving DecidableEq, Repr

/-- The date/time core of `datetime.isoformat()`:
`YYYY-MM-DDTHH:MM:SS[.ffffff]`, the fractional part present exactly when
`microsecond` is nonzero. -/
def PyDatetime.isoCore (d : PyDatetime) : String :=
  padNum 4 d.year ++ "-" ++ padNum 2 d.month ++ "-" ++ padNum 2 d.day ++ "T" ++
  padNum 2 d.hour ++ ":" ++ padNum 2 d.minute ++ ":" ++ padNum 2 d.second ++
  (if d.microsecond = 0 then "" else "." ++ padNum 6 d.microsecond)

/-- Python's rendering of a fixed UTC offset as `±HH:MM` inside
`datetime.isoformat()`. -/
def offsetSuffix (m : Int) : String :=
  (if m < 0 then "-" else "+") ++
    padNum 2 (m.natAbs / 60) ++ ":" ++ padNum 2 (m.natAbs % 60)

/-- `datetime.isoformat()`: the core string, followed by the offset suffix
exactly when the datetime is timezone-aware. -/
def PyDatetime.isoformat (d : PyDatetime) : String :=
  d.isoCore ++
    (match d.tzoffsetMinutes with
     | Option.none => ""
     | some m => offsetSuffix m)

/-- The argument domain of `BaseController._format_time`: `None`, a `str`,
a `datetime`, or a value of any other Python type.  The `other` constructor
carries the printed name of the value's type, which is what the source
interpolates into its error message. -/
inductive TimeValue where
  | none
  | str (s : String)
  | dt (d : PyDatetime)
  | other (kind : String)
deriving DecidableEq, Repr

/-- `BaseController._format_time` from `pi_web_sdk/controllers/base.py`:
`None` maps to `None`; strings are returned as-is; datetimes are serialized
with `isoformat()`; any other type raises `TypeError` (modelled as
`Except.error` carrying the message). -/
def _format_time : TimeValue → Except String (Option String)
  | .none => .ok Option.none
  | .str s => .ok (some s)
  | .dt d => .ok (some d.isoformat)
  | .other kind =>
      .error ("Time value must be str, datetime, or None, got " ++ kind)

/-- `true` iff a serialized timestamp string carries an explicit UTC offset:
a `+` or `-` occurring in its time-of-day part (the characters after the
10-character date and the `T`). -/
def hasExplicitOffset (s : String) : Bool :=
  let timePart := s.data.drop 11
  timePart.contains '+' || timePart.contains '-'

/-- C4: for every string `S`, the time codec returns `S` itself unmodified
(`encode(S) == S`); no parsing or validation of the content happens, so
protocol keywords such as `"*"` pass through. -/
theorem c4_string_passthrough (s : String) :
    _format_time (.str s) = .ok (some s) := rfl

/-- C3 counterexample: a timezone-naive datetime is serialized with *no*
offset at all — `_format_time` on naive `2024-01-02 03:04:05` yields
`"2024-01-02T03:04:05"`, whose time part contains no `+` or `-` — so the
claim that a zone-less timestamp "is serialized with the caller's local zone
offset" is false on the code. -/
theorem c3_counterexample :
    _format_time (.dt ⟨2024, 1, 2, 3, 4, 5, 0, Option.none⟩) =
      .ok (some "2024-01-02T03:04:05") ∧
    hasExplicitOffset "2024-01-02T03:04:05" = false := by
  exact ⟨rfl, by decide⟩

/-- C3 (amended): a timezone-aware datetime is serialized as its date/time
core with the offset suffix appended verbatim, and the *same* datetime made
naive is serialized as the bare core with no offset attached (the service,
not the codec, interprets an offset-less string as local time). -/
theorem c3_offset_handling (d : PyDatetime) (m : Int) :
    _format_time (.dt { d with tzoffsetMinutes := some m }) =
      .ok (some (d.isoCore ++ offsetSuffix m)) ∧
    _format_time (.dt { d with tzoffsetMinutes := Option.none }) =
      .ok (some (d.isoCore ++ "")) := by
  exact ⟨rfl, rfl⟩

/-- C8: any input that is neither `None`, a string, nor a datetime makes the
codec fail with a `TypeError` whose message names the received kind (the
kind's characters are a suffix of the message); being a pure function, the
embedded codec has no network or state side effects. -/
theorem c8_invalid_kind (kind : String) :
    _format_time (.other kind) =
      .error ("Time value must be str, datetime, or None, got " ++ kind) ∧
    kind.data <:+
      ("Time value must be str, datetime, or None, got " ++ kind).data := by
  refine ⟨rfl, ?_⟩
  rw [String.data_append]
  exact List.suffix_append _ _

/-- Fuel-indexed worker for the chunking loop of
`use_case_2_create_attributes_and_data_omf` (`sandbox_omf.py`):
`for batch_idx in range(0, len(values), batch_size):
  values[batch_idx : batch_idx + batch_size]`.
The fuel is instantiated with the list length, which suffices whenever
`bs ≥ 1`; Python raises `ValueError` on a step of `0`, which never occurs in
the source (`batch_size = 5000`). -/
def pyChunksGo (bs : Nat) : Nat → List α → List (List α)
  | _, [] => []
  | 0, _ :: _ => []
  | fuel + 1, v :: vs => (v :: vs).take bs :: pyChunksGo bs fuel ((v :: vs).drop bs)

/-- The batch partition of the ingestion loop: successive slices
`values[batch_idx : batch_idx + batch_size]` for `batch_idx` ranging over
`range(0, len(values), batch_size)`. -/
def pyChunks (bs : Nat) (vs : List α) : List (List α) :=
  pyChunksGo bs vs.length vs

lemma pyChunksGo_join (bs : Nat) (h : 0 < bs) :
    ∀ (fuel : Nat) (vs : List α), vs.length ≤ fuel →
      (pyChunksGo bs fuel vs).flatten = vs := by
  intro fuel
  induction fuel with
  | zero =>
      intro vs hv
      cases vs with
      | nil => rfl
      | cons v tl => simp at hv
  | succ n ih =>
      intro vs hv
      cases vs with
      | nil => rfl
      | cons v tl =>
          simp only [pyChunksGo, List.flatten_cons]
          rw [ih]
          · exact List.take_append_drop bs (v :: tl)
          · simp only [List.length_drop, List.length_cons] at *
            omega

lemma pyChunksGo_mem_length_le (bs : Nat) :
    ∀ (fuel : Nat) (vs : List α) (c : List α),
      c ∈ pyChunksGo bs fuel vs → c.length ≤ bs := by
  intro fuel
  induction fuel with
  | zero =>
      intro vs c hc
      cases vs <;> simp [pyChunksGo] at hc
  | succ n ih =>
      intro vs c hc
      cases vs with
      | nil => simp [pyChunksGo] at hc
      | cons v tl =>
          simp only [pyChunksGo, List.mem_cons] at hc
          rcases hc with rfl | hc
          · exact List.length_take_le bs (v :: tl)
          · exact ih _ c hc

/-- C1: for every value sequence and positive `batch_size`, the ingestion
send loop partitions the sequence into contiguous chunks of at most
`batch_size` records whose in-order concatenation is the original sequence;
in particular `batch_size = 2` on 5 records yields chunk sizes `[2, 2, 1]`
in original order. -/
theorem c1_batching (bs : Nat) (vs : List α) (h : 0 < bs) :
    (pyChunks bs vs).flatten = vs ∧
    (∀ c ∈ pyChunks bs vs, c.length ≤ bs) ∧
    (pyChunks 2 ([0, 1, 2, 3, 4] : List Nat)).map List.length = [2, 2, 1] := by
  refine ⟨pyChunksGo_join bs h vs.length vs le_rfl, ?_, by decide⟩
  intro c hc
  exact pyChunksGo_mem_length_le bs vs.length vs c hc

/-- Witness for C1 at `batch_size = 2` on five concrete records. -/
theorem c1_batching_witness :
    0 < 2 ∧
    ((pyChunks 2 ([10, 20, 30, 40, 50] : List Nat)).flatten = [10, 20, 30, 40, 50] ∧
      (∀ c ∈ pyChunks 2 ([10, 20, 30, 40, 50] : List Nat), c.length ≤ 2) ∧
      (pyChunks 2 ([0, 1, 2, 3, 4] : List Nat)).map List.length = [2, 2, 1]) :=
  ⟨by decide, c1_batching 2 [10, 20, 30, 40, 50] (by decide)⟩

/-- Outcome of the per-container write loop of
`use_case_2_create_attributes_and_data_omf`: the chunks whose send
succeeded (in order), the `write_error` flag, the 1-based `batch_num`
printed in the error message of the failing chunk (if any), and the number
of send calls actually made. -/
structure SendOutcome (α : Type _) where
  sent : List (List α)
  writeError : Bool
  failedBatchNum : Option Nat
  attempts : Nat
deriving DecidableEq, Repr

/-- The inner write loop of `use_case_2_create_attributes_and_data_omf`,
started at chunk index `i` (0-based; the source prints
`batch_num = batch_idx // batch_size + 1 = i + 1`).  `ok i` models whether
`omf_manager.send_time_series_data` succeeds on chunk `i` or raises
`PIWebAPIError`.  On success the chunk is delivered and the loop continues;
on failure the loop records the failing batch number, sets `write_error`,
and `break`s without attempting any later chunk. -/
def sendChunksFrom (ok : Nat → Bool) : Nat → List (List α) → SendOutcome α
  | _, [] => ⟨[], false, Option.none, 0⟩
  | i, c :: cs =>
      if ok i then
        let r := sendChunksFrom ok (i + 1) cs
        ⟨c :: r.sent, r.writeError, r.failedBatchNum, r.attempts + 1⟩
      else
        ⟨[], true, some (i + 1), 1⟩

/-- Sending one container's values: partition into batches, then run the
fail-fast write loop from chunk 0. -/
def useCase2Send (ok : Nat → Bool) (bs : Nat) (vs : List α) : SendOutcome α :=
  sendChunksFrom ok 0 (pyChunks bs vs)

lemma sendChunksFrom_spec (ok : Nat → Bool) :
    ∀ (k j : Nat) (chunks : List (List α)),
      k < chunks.length → (∀ i, i < k → ok (j + i) = true) →
      ok (j + k) = false →
      sendChunksFrom ok j chunks =
        ⟨chunks.take k, true, some (j + k + 1), k + 1⟩ := by
  intro k
  induction k with
  | zero =>
      intro j chunks hk _ hfail
      cases chunks with
      | nil => simp at hk
      | cons c cs =>
          simp only [Nat.add_zero] at hfail
          simp [sendChunksFrom, hfail]
  | succ k ih =>
      intro j chunks hk hpre hfail
      cases chunks with
      | nil => simp at hk
      | cons c cs =>
          have hok : ok j = true := by simpa using hpre 0 (Nat.succ_pos k)
          have hrec := ih (j + 1) cs
            (by simpa using Nat.lt_of_succ_lt_succ hk)
            (fun i hi => by
              have := hpre (i + 1) (Nat.succ_lt_succ hi)
              simpa [Nat.add_assoc, Nat.add_comm, Nat.add_left_comm] using this)
            (by simpa [Nat.add_assoc, Nat.add_comm, Nat.add_left_comm] using hfail)
          simp only [sendChunksFrom, hok, if_true, hrec, List.take_succ_cons]
          rw [show j + 1 + k + 1 = j + (k + 1) + 1 from by omega]

/-- C2: if the sends of all chunks before index `k` succeed and the send of
chunk `k` fails, the loop delivers exactly the first `k` chunks (which stay
delivered), makes exactly `k + 1` send calls (so no chunk after the `k`-th
is attempted), sets `write_error`, and records the failing batch number
`k + 1` — one more than the count of chunks delivered before the failure.
The spec's example instance (`batch_size = 2`, 5 records, second chunk
fails) is the final conjunct: 2 records delivered, failure recorded at
batch number 2, third chunk never attempted. -/
theorem c2_failfast (ok : Nat → Bool) (chunks : List (List α)) (k : Nat)
    (hk : k < chunks.length) (hpre : ∀ i, i < k → ok i = true)
    (hfail : ok k = false) :
    sendChunksFrom ok 0 chunks =
      { sent := chunks.take k, writeError := true,
        failedBatchNum := some (k + 1), attempts := k + 1 } ∧
    (sendChunksFrom ok 0 chunks).failedBatchNum =
      some ((sendChunksFrom ok 0 chunks).sent.length + 1) ∧
    useCase2Send (fun i => i == 0) 2 ([0, 1, 2, 3, 4] : List Nat) =
      { sent := [[0, 1]], writeError := true,
        failedBatchNum := some 2, attempts := 2 } := by
  have h := sendChunksFrom_spec ok k 0 chunks hk
    (fun i hi => by simpa using hpre i hi) (by simpa using hfail)
  simp only [Nat.zero_add] at h
  refine ⟨h, ?_, by decide⟩
  rw [h]
  simp [List.length_take, Nat.min_eq_left (Nat.le_of_lt hk)]

/-- Witness for C2: three chunks, the second send fails. -/
theorem c2_failfast_witness :
    1 < ([[0, 1], [2, 3], [4]] : List (List Nat)).length ∧
    (sendChunksFrom (fun i => i == 0) 0 ([[0, 1], [2, 3], [4]] : List (List Nat)) =
      { sent := [[0, 1]], writeError := true,
        failedBatchNum := some 2, attempts := 2 } ∧
      (sendChunksFrom (fun i => i == 0) 0
          ([[0, 1], [2, 3], [4]] : List (List Nat))).failedBatchNum =
        some ((sendChunksFrom (fun i => i == 0) 0
          ([[0, 1], [2, 3], [4]] : List (List Nat))).sent.length + 1) ∧
      useCase2Send (fun i => i == 0) 2 ([0, 1, 2, 3, 4] : List Nat) =
        { sent := [[0, 1]], writeError := true,
          failedBatchNum := some 2, attempts := 2 }) :=
  ⟨by decide,
    c2_failfast (fun i => i == 0) [[0, 1], [2, 3], [4]] 1 (by decide)
      (by decide) (by decide)⟩

/-- A query-parameter value as the controllers pass it to the HTTP client:
a Python string, bool, int, or list of strings. -/
inductive PVal where
  | s (v : String)
  | b (v : Bool)
  | i (v : Int)
  | ls (v : List String)
deriving DecidableEq, Repr

/-- The HTTP verb of the single round trip a controller method issues. -/
inductive HttpMethod where
  | get
  | post
  | put
deriving DecidableEq, Repr

/-- The one request a controller method hands to `self.client.<method>`:
verb, logical path, and the query parameters in dict insertion order. -/
structure Request where
  method : HttpMethod
  path : String
  params : List (String × PVal)
deriving DecidableEq, Repr

/-- The `if optional_param:` convention of the controllers for an optional
string: the pair is added only when the value is truthy, i.e. present and
non-empty. -/
def optStrParam (key : String) (v : Option String) : List (String × PVal) :=
  match v with
  | Option.none => []
  | some s => if s.isEmpty then [] else [(key, .s s)]

/-- `if max_count:` for an optional int: truthy iff present and nonzero. -/
def optIntParam (key : String) (v : Option Int) : List (String × PVal) :=
  match v with
  | Option.none => []
  | some n => if n = 0 then [] else [(key, .i n)]

/-- First-match lookup of a query parameter by key. -/
def plookup (key : String) : List (String × PVal) → Option PVal
  | [] => Option.none
  | (k, v) :: rest => if k = key then some v else plookup key rest

/-- The value a truthy-gated optional string parameter ends up with:
present exactly when the input is present and non-empty. -/
def optStrVal (v : Option String) : Option PVal :=
  match v with
  | Option.none => Option.none
  | some s => if s.isEmpty then Option.none else some (.s s)

/-- The value a truthy-gated optional int parameter ends up with:
present exactly when the input is present and nonzero. -/
def optIntVal (v : Option Int) : Option PVal :=
  match v with
  | Option.none => Option.none
  | some n => if n = 0 then Option.none else some (.i n)

lemma plookup_optStrParam_ne (key k : String) (v : Option String)
    (rest : List (String × PVal)) (h : k ≠ key) :
    plookup key (optStrParam k v ++ rest) = plookup key rest := by
  rcases v with _ | s
  · rfl
  · simp only [optStrParam]
    split
    · rfl
    · simp [plookup, h]

lemma plookup_optStrParam_self (key : String) (v : Option String)
    (rest : List (String × PVal)) (hrest : plookup key rest = Option.none) :
    plookup key (optStrParam key v ++ rest) = optStrVal v := by
  rcases v with _ | s
  · exact hrest
  · simp only [optStrParam, optStrVal]
    split
    · exact hrest
    · simp [plookup]

lemma plookup_optIntParam_ne (key k : String) (v : Option Int)
    (rest : List (String × PVal)) (h : k ≠ key) :
    plookup key (optIntParam k v ++ rest) = plookup key rest := by
  rcases v with _ | n
  · rfl
  · simp only [optIntParam]
    split
    · rfl
    · simp [plookup, h]

lemma plookup_optIntParam_self (key : String) (v : Option Int)
    (rest : List (String × PVal)) (hrest : plookup key rest = Option.none) :
    plookup key (optIntParam key v ++ rest) = optIntVal v := by
  rcases v with _ | n
  · exact hrest
  · simp only [optIntParam, optIntVal]
    split
    · exact hrest
    · simp [plookup]

lemma plookup_optStrParam_atom (key k : String) (v : Option String)
    (h : k ≠ key) : plookup key (optStrParam k v) = Option.none := by
  rcases v with _ | s
  · rfl
  · simp only [optStrParam]
    split
    · rfl
    · simp [plookup, h]

/-- The spec's error vocabulary for the registration surface.  The embedded
controller itself never produces one of these: all validation is left to
the remote service. -/
inductive SdkError where
  | invalidArgument (msg : String)
  | notFound (msg : String)
deriving DecidableEq, Repr

/-- `StreamSetController.register_updates` (`stream.py`): builds
`params = {"webId": web_ids}`, adds `selectedFields` when truthy, and issues
one POST to `streamsets/updates`.  The source performs no client-side check
of `web_ids`, so the error side of the result type is never used. -/
def register_updates (web_ids : List String) (selected_fields : Option String) :
    Except SdkError Request :=
  .ok { method := .post, path := "streamsets/updates",
        params := ("webId", .ls web_ids) ::
          optStrParam "selectedFields" selected_fields }

/-- C5 counterexample: registering with the *empty* stream set does not fail
with `InvalidArgument` — the controller issues the registration POST anyway,
with `webId = []`. -/
theorem c5_counterexample :
    register_updates [] Option.none =
      .ok { method := .post, path := "streamsets/updates",
            params := [("webId", .ls [])] } ∧
    (register_updates [] Option.none).isOk = true :=
  ⟨rfl, rfl⟩

/-- C5 (amended): `register_updates` performs no client-side validation of
the identity set: for every list of stream identities — the empty list
included — it succeeds and issues exactly one POST to `streamsets/updates`
carrying the list under `webId`; emptiness checking is left to the remote
service. -/
theorem c5_register_no_validation (web_ids : List String)
    (sf : Option String) :
    ∃ r : Request, register_updates web_ids sf = .ok r ∧
      r.method = .post ∧ r.path = "streamsets/updates" ∧
      plookup "webId" r.params = some (.ls web_ids) := by
  refine ⟨_, rfl, rfl, rfl, ?_⟩
  simp [plookup]

/-- `StreamController.retrieve_update` (`stream.py`): one GET to
`streams/updates/{marker}` — the marker interpolated into the path — with
`selectedFields` / `desiredUnits` attached when truthy. -/
def retrieve_update (marker : String)
    (selected_fields desired_units : Option String) : Request :=
  { method := .get, path := "streams/updates/" ++ marker,
    params := optStrParam "selectedFields" selected_fields ++
      optStrParam "desiredUnits" desired_units }

/-- `StreamSetController.retrieve_updates` (`stream.py`): one GET to
`streamsets/updates` with `params = {"marker": marker}` plus the truthy
optional parameters. -/
def retrieve_updates (marker : String)
    (selected_fields desired_units : Option String) : Request :=
  { method := .get, path := "streamsets/updates",
    params := ("marker", .s marker) ::
      (optStrParam "selectedFields" selected_fields ++
        optStrParam "desiredUnits" desired_units) }

/-- C7 counterexample: a field-selection hint that is provided but empty
(`selected_fields = ""`) is *not* attached as a query parameter — the single
-stream retrieve sends no parameters at all — so "attached exactly when
provided" fails as stated. -/
theorem c7_counterexample :
    retrieve_update "m1" (some "") Option.none =
      { method := .get, path := "streams/updates/m1", params := [] } ∧
    plookup "selectedFields"
      (retrieve_update "m1" (some "") Option.none).params = Option.none :=
  ⟨rfl, rfl⟩

/-- C7 (amended): retrieval is one round trip per call — the value of each
operation is a single GET request.  The single-stream retrieve carries the
marker in the path and the stream-set retrieve carries it as the `marker`
query parameter; the field-selection and unit-conversion hints are attached
as query parameters exactly when provided with a truthy (non-empty) value. -/
theorem c7_retrieve_requests (marker : String) (sf du : Option String) :
    (retrieve_update marker sf du).method = .get ∧
    (retrieve_update marker sf du).path = "streams/updates/" ++ marker ∧
    plookup "selectedFields" (retrieve_update marker sf du).params =
      optStrVal sf ∧
    plookup "desiredUnits" (retrieve_update marker sf du).params =
      optStrVal du ∧
    (retrieve_updates marker sf du).method = .get ∧
    (retrieve_updates marker sf du).path = "streamsets/updates" ∧
    plookup "marker" (retrieve_updates marker sf du).params =
      some (.s marker) ∧
    plookup "selectedFields" (retrieve_updates marker sf du).params =
      optStrVal sf ∧
    plookup "desiredUnits" (retrieve_updates marker sf du).params =
      optStrVal du := by
  refine ⟨rfl, rfl, ?_, ?_, rfl, rfl, ?_, ?_, ?_⟩
  · exact plookup_optStrParam_self _ sf _
      (plookup_optStrParam_atom _ _ du (by decide))
  · rw [show (retrieve_update marker sf du).params =
      optStrParam "selectedFields" sf ++ (optStrParam "desiredUnits" du ++ [])
      from by simp [retrieve_update]]
    rw [plookup_optStrParam_ne _ _ sf _ (by decide)]
    exact plookup_optStrParam_self _ du _ rfl
  · simp [retrieve_updates, plookup]
  · show plookup _ (("marker", PVal.s marker) :: _) = _
    simp only [plookup]
    rw [if_neg (by decide)]
    exact plookup_optStrParam_self _ sf _
      (plookup_optStrParam_atom _ _ du (by decide))
  · show plookup _ (("marker", PVal.s marker) :: _) = _
    simp only [plookup]
    rw [if_neg (by decide)]
    rw [show optStrParam "selectedFields" sf ++ optStrParam "desiredUnits" du =
      optStrParam "selectedFields" sf ++ (optStrParam "desiredUnits" du ++ [])
      from by simp]
    rw [plookup_optStrParam_ne _ _ sf _ (by decide)]
    exact plookup_optStrParam_self _ du _ rfl

/-- `StreamController.get_recorded` (`stream.py`): starts the parameter
dict with `includeFilteredValues` (always sent), formats the two time
bounds (a `TypeError` from `_format_time` propagates and no request is
issued), gates every optional parameter on truthiness, and issues one GET
to `streams/{web_id}/recorded`. -/
def get_recorded (web_id : String) (start_time end_time : TimeValue)
    (boundary_type : Option String) (max_count : Option Int)
    (include_filtered_values : Bool)
    (filter_expression selected_fields time_zone desired_units : Option String) :
    Except String Request :=
  match _format_time start_time with
  | .error e => .error e
  | .ok start_time_str =>
    match _format_time end_time with
    | .error e => .error e
    | .ok end_time_str =>
      .ok { method := .get, path := "streams/" ++ web_id ++ "/recorded",
            params := ("includeFilteredValues", .b include_filtered_values) ::
              (optStrParam "startTime" start_time_str ++
                (optStrParam "endTime" end_time_str ++
                  (optStrParam "boundaryType" boundary_type ++
                    (optIntParam "maxCount" max_count ++
                      (optStrParam "filterExpression" filter_expression ++
                        (optStrParam "selectedFields" selected_fields ++
                          (optStrParam "timeZone" time_zone ++
                            (optStrParam "desiredUnits" desired_units ++
                              [])))))))) }

/-- C10: in `get_recorded`, an optional parameter given a falsy value is
treated as absent — `maxCount` is sent exactly when `max_count` is present
and nonzero (so `max_count = 0` omits it entirely), `selectedFields` exactly
when `selected_fields` is present and non-empty (so `""` omits it) — while
`includeFilteredValues` is always sent, even when `False`. -/
theorem c10_falsy_treated_absent (web_id : String) (start_time end_time : TimeValue)
    (bt : Option String) (mc : Option Int) (ifv : Bool)
    (fe sf tz du : Option String) (r : Request)
    (h : get_recorded web_id start_time end_time bt mc ifv fe sf tz du = .ok r) :
    plookup "includeFilteredValues" r.params = some (.b ifv) ∧
    plookup "maxCount" r.params = optIntVal mc ∧
    plookup "selectedFields" r.params = optStrVal sf := by
  rcases hst : _format_time start_time with e | st <;>
    rw [get_recorded, hst] at h
  · exact absurd h (by simp)
  rcases het : _format_time end_time with e | et <;> rw [het] at h
  · exact absurd h (by simp)
  dsimp only at h
  rw [Except.ok.injEq] at h
  subst h
  refine ⟨by simp [plookup], ?_, ?_⟩
  · simp only [plookup]
    rw [if_neg (by decide)]
    rw [plookup_optStrParam_ne _ _ st _ (by decide)]
    rw [plookup_optStrParam_ne _ _ et _ (by decide)]
    rw [plookup_optStrParam_ne _ _ bt _ (by decide)]
    refine plookup_optIntParam_self _ mc _ ?_
    rw [plookup_optStrParam_ne _ _ fe _ (by decide)]
    rw [plookup_optStrParam_ne _ _ sf _ (by decide)]
    rw [plookup_optStrParam_ne _ _ tz _ (by decide)]
    rw [plookup_optStrParam_ne _ _ du _ (by decide)]
    rfl
  · simp only [plookup]
    rw [if_neg (by decide)]
    rw [plookup_optStrParam_ne _ _ st _ (by decide)]
    rw [plookup_optStrParam_ne _ _ et _ (by decide)]
    rw [plookup_optStrParam_ne _ _ bt _ (by decide)]
    rw [plookup_optIntParam_ne _ _ mc _ (by decide)]
    rw [plookup_optStrParam_ne _ _ fe _ (by decide)]
    refine plookup_optStrParam_self _ sf _ ?_
    rw [plookup_optStrParam_ne _ _ tz _ (by decide)]
    rw [plookup_optStrParam_ne _ _ du _ (by decide)]
    rfl

/-- Witness for C10: `max_count = 0` and `selected_fields = ""` produce a
request whose only parameter is `includeFilteredValues = False`. -/
theorem c10_witness :
    plookup "includeFilteredValues"
      [(("includeFilteredValues" : String), PVal.b false)] = some (.b false) ∧
    plookup "maxCount"
      [(("includeFilteredValues" : String), PVal.b false)] = optIntVal (some 0) ∧
    plookup "selectedFields"
      [(("includeFilteredValues" : String), PVal.b false)] = optStrVal (some "") :=
  c10_falsy_treated_absent "w1" .none .none Option.none (some 0) false
    Option.none (some "") Option.none Option.none
    { method := .get, path := "streams/w1/recorded",
      params := [("includeFilteredValues", .b false)] } rfl

/-- An AF element as the hierarchy helper reads it: the `Name` and `WebId`
fields of a returned item. -/
structure AFElement where
  name : String
  webId : String
deriving DecidableEq, Repr

/-- The `for elem in result.get("Items", []): if elem["Name"] == name` scan:
the first item whose `Name` equals `name`. -/
def findByName (name : String) (items : List AFElement) : Option AFElement :=
  items.find? (fun e => e.name == name)

/-- Errors surfaced by `create_or_get_element`: a propagated `PIWebAPIError`
from the create call, the generic `Exception(f"Failed to create {name}")`,
and — needed to state the original claim — the spec's distinguished
`Timeout` class, which the source never raises. -/
inductive HierError where
  | piWebAPI (msg : String)
  | generic (msg : String)
  | timeout
deriving DecidableEq, Repr

/-- The remote state one `create_or_get_element` call runs against:
the outcome of the pre-create lookup (`none` models that lookup raising —
the source swallows it with a bare `except: pass`), the outcome of the
create call (`some msg` models a raised `PIWebAPIError`), and the items
returned by the single post-create re-query issued after the fixed
`time.sleep(0.5)`. -/
structure HierEnv where
  existing : Option (List AFElement)
  createError : Option String
  requery : List AFElement
deriving DecidableEq, Repr

/-- The create-then-re-query tail of `create_or_get_element`: create the
element (propagating a raised `PIWebAPIError`), wait 0.5 s, re-query once,
and return the first name match — or raise the generic
`Failed to create {name}` exception. -/
def createThenRequery (env : HierEnv) (name : String) :
    Except HierError AFElement :=
  match env.createError with
  | some msg => .error (.piWebAPI msg)
  | Option.none =>
      match findByName name env.requery with
      | some e => .ok e
      | Option.none => .error (.generic ("Failed to create " ++ name))

/-- `create_or_get_element` from `use_case_1_create_hierarchy_omf`
(`sandbox_omf.py`): return a matching element from the first lookup when
one exists (a raised lookup error is swallowed); otherwise create, sleep
a fixed 0.5 s, re-query exactly once and return the match, raising the
generic failure otherwise. -/
def create_or_get_element (env : HierEnv) (name : String) :
    Except HierError AFElement :=
  match env.existing with
  | some items =>
      match findByName name items with
      | some e => .ok e
      | Option.none => createThenRequery env name
  | Option.none => createThenRequery env name

/-- C6 counterexample: when the created node never becomes visible, the
helper fails with the generic exception `Failed to create {name}`, not with
a distinguished `Timeout` error. -/
theorem c6_counterexample :
    create_or_get_element ⟨some [], Option.none, []⟩ "IndyIQ_OMF" =
      .error (.generic "Failed to create IndyIQ_OMF") ∧
    create_or_get_element ⟨some [], Option.none, []⟩ "IndyIQ_OMF" ≠
      .error .timeout := by
  refine ⟨rfl, fun h => ?_⟩
  exact HierError.noConfusion (Except.error.inj h)

/-- C6 (amended): the visibility wait is bounded — after a successful
create, the helper re-queries exactly once after a fixed 0.5 s delay, and
when the created node is not visible in that one re-query it fails
immediately with the generic error naming the node (`Failed to create
{name}`), never waiting or retrying further (and not with a distinguished
`Timeout` error class). -/
theorem c6_bounded_requery (env : HierEnv) (name : String)
    (hmiss : ∀ items, env.existing = some items →
      findByName name items = Option.none)
    (hcreate : env.createError = Option.none)
    (hvis : findByName name env.requery = Option.none) :
    create_or_get_element env name =
      .error (.generic ("Failed to create " ++ name)) := by
  rcases hex : env.existing with _ | items
  · simp [create_or_get_element, createThenRequery, hex, hcreate, hvis]
  · have hm := hmiss items hex
    simp [create_or_get_element, createThenRequery, hex, hm, hcreate, hvis]

/-- Witness for C6: a lookup that finds only other names, a successful
create, and a re-query that still misses the new node. -/
theorem c6_bounded_requery_witness :
    create_or_get_element
      ⟨some [⟨"Other", "w0"⟩], Option.none, [⟨"Another", "w2"⟩]⟩ "Model1" =
      .error (.generic ("Failed to create " ++ "Model1")) :=
  c6_bounded_requery _ _ (fun items h => by cases h; decide) rfl (by decide)

/-- A value stored under a key of a PI Web API payload dict: the field
types occurring in `EventFrame` (strings, booleans, string lists). -/
inductive FV where
  | s (v : String)
  | b (v : Bool)
  | ls (v : List String)
deriving DecidableEq, Repr

/-- Python `dict.get(key)` over the payload: the first binding for `key`
(`none` when absent); a binding may itself carry Python `None`, so entries
hold `Option FV`. -/
def dget (key : String) : List (String × Option FV) → Option FV
  | [] => Option.none
  | (k, v) :: rest => if k = key then v else dget key rest

/-- One conditional write of `to_dict`:
`if self.f is not None or not exclude_none: result[key] = self.f`. -/
def entry (exclude_none : Bool) (key : String) (v : Option FV) :
    List (String × Option FV) :=
  if v.isSome || !exclude_none then [(key, v)] else []

/-- `EventFrame` from `pi_web_sdk/models/event.py`; the first six fields
are inherited from the `PIWebAPIObject` dataclass base.  All fields are
optional and default to `None`; the `links` payload is kept opaque here
(modelled as a string). -/
structure EventFrame where
  web_id : Option String := Option.none
  id : Option String := Option.none
  name : Option String := Option.none
  description : Option String := Option.none
  path : Option String := Option.none
  links : Option String := Option.none
  acknowledge_date : Option String := Option.none
  acknowledged_by : Option String := Option.none
  are_values_captured : Option Bool := Option.none
  can_be_acknowledged : Option Bool := Option.none
  category_names : Option (List String) := Option.none
  end_time : Option String := Option.none
  has_children : Option Bool := Option.none
  is_acknowledged : Option Bool := Option.none
  is_annotation : Option Bool := Option.none
  is_locked : Option Bool := Option.none
  referenced_element_web_id : Option String := Option.none
  security_descriptor : Option String := Option.none
  severity : Option String := Option.none
  start_time : Option String := Option.none
  template_name : Option String := Option.none
deriving DecidableEq, Repr

/-- Modelled from the spec: `pi_web_sdk/models/base.py` (`PIWebAPIObject`,
the dataclass base whose `to_dict`/`from_dict` the subclass calls) is not
under src — the spec classifies the dataclass-style field mapping as
uniform plumbing.  Its six fields and their PI Web API keys (`WebId`, `Id`,
`Name`, `Description`, `Path`, `Links`) are reconstructed from their use in
`event.py`'s `from_dict`, with the same conditional-write pattern the
subclass uses for its own fields. -/
def baseToDict (e : EventFrame) (xn : Bool) : List (String × Option FV) :=
  entry xn "WebId" (e.web_id.map .s) ++
    (entry xn "Id" (e.id.map .s) ++
      (entry xn "Name" (e.name.map .s) ++
        (entry xn "Description" (e.description.map .s) ++
          (entry xn "Path" (e.path.map .s) ++
            (entry xn "Links" (e.links.map .s) ++ [])))))

/-- `EventFrame.to_dict`: the base dict (`super().to_dict(exclude_none)`)
followed by the subclass's fifteen conditional writes, in source order. -/
def EventFrame.to_dict (e : EventFrame) (exclude_none : Bool) :
    List (String × Option FV) :=
  baseToDict e exclude_none ++
    (entry exclude_none "AcknowledgeDate" (e.acknowledge_date.map .s) ++
      (entry exclude_none "AcknowledgedBy" (e.acknowledged_by.map .s) ++
        (entry exclude_none "AreValuesCaptured" (e.are_values_captured.map .b) ++
          (entry exclude_none "CanBeAcknowledged" (e.can_be_acknowledged.map .b) ++
            (entry exclude_none "CategoryNames" (e.category_names.map .ls) ++
              (entry exclude_none "EndTime" (e.end_time.map .s) ++
                (entry exclude_none "HasChildren" (e.has_children.map .b) ++
                  (entry exclude_none "IsAcknowledged" (e.is_acknowledged.map .b) ++
                    (entry exclude_none "IsAnnotation" (e.is_annotation.map .b) ++
                      (entry exclude_none "IsLocked" (e.is_locked.map .b) ++
                        (entry exclude_none "ReferencedElementWebId"
                            (e.referenced_element_web_id.map .s) ++
                          (entry exclude_none "SecurityDescriptor"
                              (e.security_descriptor.map .s) ++
                            (entry exclude_none "Severity" (e.severity.map .s) ++
                              (entry exclude_none "StartTime" (e.start_time.map .s) ++
                                (entry exclude_none "TemplateName"
                                    (e.template_name.map .s) ++
                                  [])))))))))))))))

/-- The typed shadow of reading a string field with `data.get(key)`. -/
def asStr : Option FV → Option String
  | some (.s v) => some v
  | _ => Option.none

/-- The typed shadow of reading a boolean field with `data.get(key)`. -/
def asBool : Option FV → Option Bool
  | some (.b v) => some v
  | _ => Option.none

/-- The typed shadow of reading a string-list field with `data.get(key)`. -/
def asList : Option FV → Option (List String)
  | some (.ls v) => some v
  | _ => Option.none

/-- `EventFrame.from_dict`: every field read back from its PI Web API key
with `data.get`, the base fields through `PIWebAPIObject.from_dict`. -/
def EventFrame.from_dict (d : List (String × Option FV)) : EventFrame :=
  { web_id := asStr (dget "WebId" d)
    id := asStr (dget "Id" d)
    name := asStr (dget "Name" d)
    description := asStr (dget "Description" d)
    path := asStr (dget "Path" d)
    links := asStr (dget "Links" d)
    acknowledge_date := asStr (dget "AcknowledgeDate" d)
    acknowledged_by := asStr (dget "AcknowledgedBy" d)
    are_values_captured := asBool (dget "AreValuesCaptured" d)
    can_be_acknowledged := asBool (dget "CanBeAcknowledged" d)
    category_names := asList (dget "CategoryNames" d)
    end_time := asStr (dget "EndTime" d)
    has_children := asBool (dget "HasChildren" d)
    is_acknowledged := asBool (dget "IsAcknowledged" d)
    is_annotation := asBool (dget "IsAnnotation" d)
    is_locked := asBool (dget "IsLocked" d)
    referenced_element_web_id := asStr (dget "ReferencedElementWebId" d)
    security_descriptor := asStr (dget "SecurityDescriptor" d)
    severity := asStr (dget "Severity" d)
    start_time := asStr (dget "StartTime" d)
    template_name := asStr (dget "TemplateName" d) }

@[simp] lemma dget_nil (key : String) : dget key [] = Option.none := rfl

lemma dget_entry_skip (key k : String) (v : Option FV)
    (rest : List (String × Option FV)) (h : k ≠ key) :
    dget key (entry true k v ++ rest) = dget key rest := by
  rcases v with _ | x <;> simp [entry, dget, h]

lemma dget_entry_self (key : String) (v : Option FV)
    (rest : List (String × Option FV)) (hrest : dget key rest = Option.none) :
    dget key (entry true key v ++ rest) = v := by
  rcases v with _ | x
  · simpa [entry] using hrest
  · simp [entry, dget]

@[simp] lemma asStr_map (w : Option String) : asStr (w.map .s) = w := by
  rcases w <;> rfl

@[simp] lemma asBool_map (w : Option Bool) : asBool (w.map .b) = w := by
  rcases w <;> rfl

@[simp] lemma asList_map (w : Option (List String)) :
    asList (w.map .ls) = w := by
  rcases w <;> rfl

lemma dget_entry_atom_skip (key k : String) (v : Option FV) (h : k ≠ key) :
    dget key (entry true k v) = Option.none := by
  rcases v with _ | x <;> simp [entry, dget, h]

lemma dget_entry_atom_self (key : String) (v : Option FV) :
    dget key (entry true key v) = v := by
  rcases v with _ | x <;> simp [entry, dget]

lemma entry_true_mem (p : String × Option FV) (k : String) (v : Option FV)
    (h : p ∈ entry true k v) : p.2.isSome := by
  rcases v with _ | x
  · simp [entry] at h
  · simp [entry] at h
    subst h
    rfl

/-- C9: `from_dict ∘ to_dict` (with `exclude_none = true`, the default) is
the identity on `EventFrame`: every `None` field is omitted from the dict —
no entry of the produced dict carries `None` — and read back as `None`,
and every non-`None` field round-trips to its original value under its PI
Web API key. -/
theorem c9_event_frame_roundtrip (e : EventFrame) :
    EventFrame.from_dict (e.to_dict true) = e ∧
    ∀ p ∈ e.to_dict true, p.2.isSome := by
  constructor
  · obtain ⟨f1, f2, f3, f4, f5, f6, f7, f8, f9, f10, f11, f12, f13, f14, f15,
      f16, f17, f18, f19, f20, f21⟩ := e
    simp only [EventFrame.to_dict, baseToDict, EventFrame.from_dict]
    simp [EventFrame.mk.injEq, dget_entry_skip, dget_entry_self,
      dget_entry_atom_skip, dget_entry_atom_self]
  · intro p hp
    simp only [EventFrame.to_dict, baseToDict, List.append_assoc,
      List.append_nil, List.nil_append, List.mem_append] at hp
    rcases hp with h|h|h|h|h|h|h|h|h|h|h|h|h|h|h|h|h|h|h|h|h
    all_goals exact entry_true_mem p _ _ h

end PiWebSdk
